import Mathlib

/-!
# Verification of the audio recording / WebSocket streaming pipeline

A shallow embedding of the recording pipeline of the repository:

* `useRecorder` (the MediaRecorder-based recording hook),
* `useAudioWebSocket` (the WebSocket streaming hook), and
* the `AudioRecorder` component that wires them together
  (chunk buffering, the buffered-chunk flush effect, start/stop/cancel
  orchestration, and the status-message handler).

The browser's single-threaded event-loop model is embedded explicitly:
state setters are modelled as immediate field updates, and the queued
`dataavailable` / `stop` events of the MediaRecorder together with the
`setTimeout` bodies are kept in explicit task/timer queues drained by
`tick`.  The `useEffect` that flushes buffered chunks on connection is
applied after every processed event, which is behaviourally equivalent
to React's run-after-state-change discipline because the effect body is
guarded by its own condition and is idempotent.
-/

/-- An encoded audio chunk, abstracted to an opaque payload identifier. -/
abbrev Chunk := Nat

/-- WebSocket connection status of the hook (`WebSocketStatus`). -/
inductive WSStatus
  | disconnected
  | connecting
  | connected
  | error
  deriving DecidableEq

/-- Server-driven processing status (`ProcessingStatus`, sans `null`). -/
inductive ProcStatus
  | recording_received
  | verifying
  | processing
  | completed
  | recording_cancelled
  deriving DecidableEq

/-- Phase of the underlying `MediaRecorder`. -/
inductive MRPhase
  | recording
  | inactive
  deriving DecidableEq

/-- The `MediaRecorder` device object: its phase and the audio data
accumulated since the last `dataavailable` emission (abstracted to at
most one pending chunk). -/
structure MR where
  phase : MRPhase
  pending : Option Chunk
  deriving DecidableEq

/-- Ready state of a platform WebSocket object. -/
inductive RS
  | connecting
  | opened
  | closing
  | closed
  deriving DecidableEq

/-- A frame sent on the wire: binary audio or a JSON control message. -/
inductive WireMsg
  | bin (c : Chunk)
  | ctl (st : String)
  deriving DecidableEq

/-- A platform WebSocket object: its ready state, the frames it was
asked to transmit, and whether its `send` throws. -/
structure Sock where
  readyState : RS
  sent : List WireMsg
  failSend : Bool
  deriving DecidableEq

/-- An inbound server frame: either unparseable JSON or an object with
`type`, `status` and optional `task_set_id` fields. -/
inductive Frame
  | malformed
  | obj (typ : String) (status : String) (task_set_id : Option String)
  deriving DecidableEq

/-- A queued continuation: a `dataavailable` event, a MediaRecorder
`stop` event, the 100ms stop-grace `setTimeout` body of
`stopRecording`, or the 500ms `sendRecordingCompleted` timeout body. -/
inductive Job
  | tDataAvail (c : Option Chunk)
  | tOnStop
  | tStopTimer
  | tSendCompleted
  deriving DecidableEq

/-- The complete state of the recording pipeline: the `useRecorder`
hook, the `useAudioWebSocket` hook, the `AudioRecorder` component, the
platform sockets, the environment, and the event-loop queues. -/
structure Sys where
  -- useRecorder hook state
  recording : Bool
  audioUrl : Option (List Chunk)
  recError : Option String
  streamHeld : Bool
  trackStopCount : Nat
  deviceAcquireCount : Nat
  mr : Option MR
  audioChunks : List Chunk
  -- useAudioWebSocket hook state
  wsStatus : WSStatus
  processingStatus : Option ProcStatus
  sockets : List Sock
  wsRef : Option Nat
  -- AudioRecorder component state
  buffered : List Chunk
  isBuffering : Bool
  finishedEvents : List String
  -- environment
  token : Option String
  supportsMedia : Bool
  micGranted : Bool
  -- event-loop queues
  tasks : List Job
  timers : List Job
  -- instrumentation: the arguments of every call to sendAudioChunk
  chunkSendCalls : List Chunk
  deriving DecidableEq

/-- Platform `WebSocket.send`: throws when the socket is faulty,
otherwise appends the frame to the transmitted sequence. -/
def rawSend (k : Sock) (m : WireMsg) : Except String Sock :=
  if k.failSend then Except.error "send failed"
  else Except.ok { k with sent := k.sent ++ [m] }

/-- The currently referenced socket together with its index, provided
its ready state is OPEN (`webSocketRef.current && readyState === OPEN`). -/
def refOpenSock (s : Sys) : Option (Nat × Sock) :=
  match s.wsRef with
  | some i =>
    match s.sockets.get? i with
    | some k => if k.readyState = RS.opened then some (i, k) else none
    | none => none
  | none => none

/-- Shared send path of the hook: transmit on the referenced socket if
it is OPEN, swallowing any `send` error (the `try`/`catch` blocks of
`sendAudioChunk` and `sendStatusMessage`); otherwise do nothing. -/
def sendOnRef (s : Sys) (m : WireMsg) : Sys :=
  match refOpenSock s with
  | some (i, k) =>
    match rawSend k m with
    | Except.ok k2 => { s with sockets := s.sockets.set i k2 }
    | Except.error _ => s
  | none => s

/-- `sendAudioChunk` of `useAudioWebSocket`: every call is logged, and
the chunk is transmitted only when the referenced socket is OPEN. -/
def useAudioWebSocket_sendAudioChunk (s : Sys) (c : Chunk) : Sys :=
  sendOnRef { s with chunkSendCalls := s.chunkSendCalls ++ [c] } (WireMsg.bin c)

/-- `sendStatusMessage` of `useAudioWebSocket`. -/
def useAudioWebSocket_sendStatusMessage (s : Sys) (st : String) : Sys :=
  sendOnRef s (WireMsg.ctl st)

/-- `handleAudioChunk` of `AudioRecorder`: forward the chunk when the
channel status is connected, otherwise append it to the buffer and set
the buffering flag. -/
def handleAudioChunk (s : Sys) (c : Chunk) : Sys :=
  if s.wsStatus = WSStatus.connected then useAudioWebSocket_sendAudioChunk s c
  else { s with buffered := s.buffered ++ [c], isBuffering := true }

/-- Guard of the buffered-chunk flush `useEffect` of `AudioRecorder`. -/
def flushCond (s : Sys) : Prop :=
  s.wsStatus = WSStatus.connected ∧ s.isBuffering = true ∧ s.buffered ≠ []

instance : DecidablePred flushCond := fun s => by unfold flushCond; infer_instance

/-- The buffered-chunk flush `useEffect` of `AudioRecorder`: when the
channel is connected while buffering with a non-empty buffer, send all
buffered chunks in order, then clear the buffer and reset the flag. -/
def flushEffect (s : Sys) : Sys :=
  if flushCond s then
    let s2 := s.buffered.foldl useAudioWebSocket_sendAudioChunk s
    { s2 with buffered := [], isBuffering := false }
  else s

/-- `handleStatusChange` of `AudioRecorder`: on `completed` with a
task-set id, fire the externally observable session-finished event
(`onRecordingComplete` followed by navigation). -/
def handleStatusChange (s : Sys) (st : ProcStatus) (tid : Option String) : Sys :=
  if st = ProcStatus.completed then
    match tid with
    | some tsid => { s with finishedEvents := s.finishedEvents ++ [tsid] }
    | none => s
  else s

/-- The `onmessage` handler installed by `connectWebSocket`: parse the
frame (malformed frames are ignored), and dispatch on the status. -/
def wsOnMessage (s : Sys) (f : Frame) : Sys :=
  match f with
  | Frame.malformed => s
  | Frame.obj typ st tid =>
    if typ = "status" then
      if st = "connected" then { s with wsStatus := WSStatus.connected }
      else if st = "recording_received" then
        handleStatusChange { s with processingStatus := some ProcStatus.recording_received }
          ProcStatus.recording_received none
      else if st = "verifying" then
        handleStatusChange { s with processingStatus := some ProcStatus.verifying }
          ProcStatus.verifying none
      else if st = "processing" then
        handleStatusChange { s with processingStatus := some ProcStatus.processing }
          ProcStatus.processing none
      else if st = "completed" then
        handleStatusChange { s with processingStatus := some ProcStatus.completed }
          ProcStatus.completed tid
      else if st = "recording_cancelled" then
        handleStatusChange { s with processingStatus := some ProcStatus.recording_cancelled }
          ProcStatus.recording_cancelled none
      else s
    else s

/-- `connectWebSocket` of `useAudioWebSocket`: without a token it does
nothing; otherwise it closes the referenced socket if that socket is
OPEN, sets the status to connecting, and creates (and references) a
fresh socket. -/
def useAudioWebSocket_connectWebSocket (s : Sys) : Sys :=
  match s.token with
  | none => s
  | some _ =>
    let s1 :=
      match refOpenSock s with
      | some (i, k) => { s with sockets := s.sockets.set i { k with readyState := RS.closing } }
      | none => s
    { s1 with
      wsStatus := WSStatus.connecting,
      sockets := s1.sockets ++ [{ readyState := RS.connecting, sent := [], failSend := false }],
      wsRef := some s1.sockets.length }

/-- The `ondataavailable` handler of the recorder hook: a non-empty
blob is appended to `audioChunksRef` and handed to `onDataAvailable`
(which is `handleAudioChunk` in `AudioRecorder`). -/
def mrDataAvailable (s : Sys) (c : Option Chunk) : Sys :=
  match c with
  | none => s
  | some ch => handleAudioChunk { s with audioChunks := s.audioChunks ++ [ch] } ch

/-- The `onstop` handler of the recorder hook: with zero collected
chunks surface the "No audio data recorded" error and produce nothing;
otherwise assemble the chunks into the playable artifact. -/
def mrOnStop (s : Sys) : Sys :=
  if s.audioChunks = [] then { s with recError := some "No audio data recorded" }
  else { s with audioUrl := some s.audioChunks }

/-- Platform `MediaRecorder.stop()`: when not inactive, become
inactive and queue a final `dataavailable` event carrying the gathered
data, followed by the `stop` event. -/
def mrStop (s : Sys) : Sys :=
  match s.mr with
  | some m =>
    if m.phase = MRPhase.inactive then s
    else
      { s with
        mr := some { phase := MRPhase.inactive, pending := none },
        tasks := s.tasks ++ [Job.tDataAvail m.pending, Job.tOnStop] }
  | none => s

/-- `stream.getTracks().forEach(track => track.stop()); setStream(null)`:
release the microphone device, counting the release side effect. -/
def stopTracks (s : Sys) : Sys :=
  if s.streamHeld then
    { s with streamHeld := false, trackStopCount := s.trackStopCount + 1 }
  else s

/-- `startRecording` of `useRecorder`: a silent no-op while recording;
otherwise reset state and, if the environment permits, acquire the
microphone and start the MediaRecorder. -/
def useRecorder_startRecording (s : Sys) : Sys :=
  if s.recording then s
  else if s.supportsMedia = false then
    { s with recError := some "Your browser doesn't support audio recording" }
  else
    let s1 := { s with audioUrl := none, recError := none, audioChunks := [] }
    if s1.micGranted = false then { s1 with recError := some "Failed to start recording" }
    else
      { s1 with
        streamHeld := true,
        deviceAcquireCount := s1.deviceAcquireCount + 1,
        mr := some { phase := MRPhase.recording, pending := none },
        recording := true }

/-- Synchronous part of `stopRecording` of `useRecorder`: guarded on
`recording` and the recorder ref; requests a final data chunk when the
recorder is recording, and schedules the 100ms stop-grace timeout. -/
def useRecorder_stopRecording (s : Sys) : Sys :=
  if s.recording = false ∨ s.mr = none then s
  else
    let s1 :=
      match s.mr with
      | some m =>
        if m.phase = MRPhase.recording then
          { s with mr := some { m with pending := none },
                   tasks := s.tasks ++ [Job.tDataAvail m.pending] }
        else s
      | none => s
    { s1 with timers := s1.timers ++ [Job.tStopTimer] }

/-- Body of the 100ms `setTimeout` of `stopRecording`: stop the
recorder if still active, clear the recording flag, and release the
device tracks. -/
def stopTimerBody (s : Sys) : Sys :=
  stopTracks { mrStop s with recording := false }

/-- `cancelRecording` of `useRecorder`: guarded on `recording` and the
recorder ref; stops the recorder, clears the recording flag, discards
the artifact and all collected chunks, and releases the device. -/
def useRecorder_cancelRecording (s : Sys) : Sys :=
  if s.recording = false ∨ s.mr = none then s
  else
    stopTracks { mrStop s with recording := false, audioUrl := none, audioChunks := [] }

/-- `startRecording` of `AudioRecorder`: clear the chunk buffer, start
the WebSocket connection and the recorder hook in parallel. -/
def audioRecorder_startRecording (s : Sys) : Sys :=
  useRecorder_startRecording
    (useAudioWebSocket_connectWebSocket { s with buffered := [], isBuffering := false })

/-- `stopRecording` of `AudioRecorder`: reconnect if the channel is
not connected, stop the recorder hook, and schedule the 500ms
`sendRecordingCompleted` timeout. -/
def audioRecorder_stopRecording (s : Sys) : Sys :=
  let s1 := if s.wsStatus = WSStatus.connected then s
            else useAudioWebSocket_connectWebSocket s
  let s2 := useRecorder_stopRecording s1
  { s2 with timers := s2.timers ++ [Job.tSendCompleted] }

/-- `cancelRecording` of `AudioRecorder`: cancel the recorder hook,
clear the buffered chunks and the buffering flag, and send the
cancellation control message when connected. -/
def audioRecorder_cancelRecording (s : Sys) : Sys :=
  let s1 := useRecorder_cancelRecording s
  let s2 := { s1 with buffered := [], isBuffering := false }
  if s2.wsStatus = WSStatus.connected then
    useAudioWebSocket_sendStatusMessage s2 "recording_cancelled"
  else s2

/-- Dispatch one queued continuation. -/
def runTask (s : Sys) : Job → Sys
  | Job.tDataAvail c => mrDataAvailable s c
  | Job.tOnStop => mrOnStop s
  | Job.tStopTimer => stopTimerBody s
  | Job.tSendCompleted => useAudioWebSocket_sendStatusMessage s "recording_completed"

/-- One turn of the event loop: run the next queued task (queued
events run before pending timers), then the flush effect. -/
def tick (s : Sys) : Sys :=
  match s.tasks with
  | t :: ts => flushEffect (runTask { s with tasks := ts } t)
  | [] =>
    match s.timers with
    | t :: ts => flushEffect (runTask { s with timers := ts } t)
    | [] => s

/-- Eight event-loop turns: enough to drain every queue arising in the
scenarios below (extra turns on empty queues are identity). -/
def settle (s : Sys) : Sys :=
  tick (tick (tick (tick (tick (tick (tick (tick s)))))))

/-- Update the ready state of socket `i`. -/
def setReady (s : Sys) (i : Nat) (r : RS) : Sys :=
  match s.sockets.get? i with
  | some k => { s with sockets := s.sockets.set i { k with readyState := r } }
  | none => s

/-- External stimuli of the pipeline: audio capture, user actions,
socket lifecycle events, inbound frames, and event-loop turns. -/
inductive Ev
  | capture (c : Chunk)
  | emit (c : Chunk)
  | userStart
  | userStop
  | userCancel
  | sockOpen (i : Nat)
  | sockErr (i : Nat)
  | sockClose (i : Nat)
  | sockMsg (f : Frame)
  | tick
  deriving DecidableEq

/-- Event handlers: `capture` accumulates audio into the recorder,
`emit` is a timeslice `dataavailable` firing with fresh data, the
`user*` events are the component operations, `sockOpen` realises the
handshake (the installed `onopen` deliberately waits for the server's
`connected` frame and changes nothing else), `sockErr`/`sockClose` run
`onerror`/`onclose`, and `sockMsg` runs `onmessage`. -/
def handleEv (s : Sys) : Ev → Sys
  | Ev.capture c =>
    match s.mr with
    | some m => if m.phase = MRPhase.recording then { s with mr := some { m with pending := some c } } else s
    | none => s
  | Ev.emit c =>
    match s.mr with
    | some m =>
      if m.phase = MRPhase.recording then
        mrDataAvailable { s with mr := some { m with pending := none } } (some c)
      else s
    | none => s
  | Ev.userStart => audioRecorder_startRecording s
  | Ev.userStop => audioRecorder_stopRecording s
  | Ev.userCancel => audioRecorder_cancelRecording s
  | Ev.sockOpen i =>
    match s.sockets.get? i with
    | some k => if k.readyState = RS.connecting then setReady s i RS.opened else s
    | none => s
  | Ev.sockErr i =>
    match s.sockets.get? i with
    | some _ => { s with wsStatus := WSStatus.error }
    | none => s
  | Ev.sockClose i =>
    match s.sockets.get? i with
    | some _ => { setReady s i RS.closed with wsStatus := WSStatus.disconnected }
    | none => s
  | Ev.sockMsg f => wsOnMessage s f
  | Ev.tick => s

/-- One step: handle the event, then run the flush effect (for `tick`
the flush effect is already applied inside). -/
def step (e : Ev) (s : Sys) : Sys :=
  match e with
  | Ev.tick => tick s
  | _ => flushEffect (handleEv s e)

/-- Run a sequence of events. -/
def run (es : List Ev) (s : Sys) : Sys :=
  es.foldl (fun t e => step e t) s

/-- The initial (mounted, idle) state of the component. -/
def init (tok : Option String) : Sys :=
  { recording := false, audioUrl := none, recError := none, streamHeld := false,
    trackStopCount := 0, deviceAcquireCount := 0, mr := none, audioChunks := [],
    wsStatus := WSStatus.disconnected, processingStatus := none, sockets := [],
    wsRef := none, buffered := [], isBuffering := false, finishedEvents := [],
    token := tok, supportsMedia := true, micGranted := true, tasks := [],
    timers := [], chunkSendCalls := [] }

/-- The server's handshake acknowledgement frame. -/
def connectedFrame : Frame := Frame.obj "status" "connected" none

/-- The task-set id carried by a `completed` status frame, if any. -/
def completedTaskId : Frame → Option String
  | Frame.malformed => none
  | Frame.obj typ st tid => if typ = "status" ∧ st = "completed" then tid else none

/-- The recorder state reached after the 100ms stop-grace timer of a
single `stopRecording` has run (before the MediaRecorder `stop` event
handler): the final `dataavailable` has been delivered through the
relay, the recorder is inactive, the recording flag is cleared, and
the device tracks have been stopped exactly once. -/
def stopCore (s : Sys) (p : Option Chunk) : Sys :=
  { flushEffect (mrDataAvailable { s with mr := some ⟨MRPhase.recording, none⟩ } p) with
    mr := some ⟨MRPhase.inactive, none⟩,
    recording := false,
    streamHeld := false,
    trackStopCount :=
      (flushEffect (mrDataAvailable { s with mr := some ⟨MRPhase.recording, none⟩ } p)).trackStopCount + 1 }

/-! ### Concrete scenario states used by the claim theorems -/

/-- C2 scenario: a connected session, audio accumulated in the device
during the 250ms window before the user cancels, then `cancel()`. -/
def c2Cancelled : Sys :=
  run [Ev.userStart, Ev.sockOpen 0, Ev.sockMsg connectedFrame, Ev.capture 7, Ev.userCancel]
    (init (some "t"))

/-- C3 scenario: a connected session receiving a `processing` frame
followed by two `completed` frames carrying a task-set id. -/
def c3Run : Sys :=
  run [Ev.userStart, Ev.sockOpen 0, Ev.sockMsg connectedFrame,
       Ev.sockMsg (Frame.obj "status" "processing" none),
       Ev.sockMsg (Frame.obj "status" "completed" (some "abc123")),
       Ev.sockMsg (Frame.obj "status" "completed" (some "abc123"))] (init (some "t"))

/-- C4 scenario: a connected session receiving a `completed` frame
without a `task_set_id`. -/
def c4Run : Sys :=
  run [Ev.userStart, Ev.sockOpen 0, Ev.sockMsg connectedFrame,
       Ev.sockMsg (Frame.obj "status" "completed" none)] (init (some "t"))

/-- C5 scenario: a state in which a recording is active. -/
def c5Recording : Sys := run [Ev.userStart] (init (some "t"))

/-- C6 scenario: a concrete active-recording state. -/
def c6Recording : Sys := run [Ev.userStart] (init (some "t"))

/-- C7 scenario A: mounted state with no socket referenced. -/
def c7StateA : Sys := init (some "t")

/-- C7 scenario B: a referenced OPEN socket whose platform `send`
throws. -/
def c7StateB : Sys :=
  { init (some "t") with
    sockets := [{ readyState := RS.opened, sent := [], failSend := true }],
    wsRef := some 0 }

/-- C8 scenario: `connect()` twice while the first socket is still in
its handshake, then both handshakes complete. -/
def c8Run : Sys :=
  run [Ev.userStart, Ev.userStart, Ev.sockOpen 0, Ev.sockOpen 1] (init (some "t"))

/-- C8 scenario for the amended theorem: a session whose referenced
socket is OPEN. -/
def c8Connected : Sys := run [Ev.userStart, Ev.sockOpen 0] (init (some "t"))

/-- C9 scenario: a recording started and stopped with zero chunks. -/
def c9Recording : Sys := run [Ev.userStart] (init (some "t"))

/-- C10 scenario: the socket opens but the server never sends its
`connected` frame. -/
def c10Run : Sys := run [Ev.userStart, Ev.sockOpen 0] (init (some "t"))

/-- C10 witness state: a session that already reached connected. -/
def c10Connected : Sys :=
  run [Ev.userStart, Ev.sockOpen 0, Ev.sockMsg connectedFrame] (init (some "t"))

/-! ## Helper lemmas: shape and frame properties of the handlers -/

/-- Overriding a field with its own value is the identity. -/
theorem sys_with_sockets_self (s : Sys) : ({ s with sockets := s.sockets } : Sys) = s := by
  cases s; rfl

/-- `sendOnRef` changes at most the socket list. -/
theorem sendOnRef_shape (s : Sys) (m : WireMsg) :
    ∃ sk, sendOnRef s m = { s with sockets := sk } := by
  unfold sendOnRef
  split
  · split
    · exact ⟨_, rfl⟩
    · exact ⟨s.sockets, (sys_with_sockets_self s).symm⟩
  · exact ⟨s.sockets, (sys_with_sockets_self s).symm⟩

/-- `sendAudioChunk` logs its argument and changes at most the socket
list. -/
theorem sendAudioChunk_shape (s : Sys) (c : Chunk) :
    ∃ sk, useAudioWebSocket_sendAudioChunk s c
      = { s with sockets := sk, chunkSendCalls := s.chunkSendCalls ++ [c] } := by
  unfold useAudioWebSocket_sendAudioChunk
  obtain ⟨sk, h⟩ := sendOnRef_shape { s with chunkSendCalls := s.chunkSendCalls ++ [c] } (WireMsg.bin c)
  exact ⟨sk, by rw [h]⟩

/-- Folding `sendAudioChunk` over a list logs exactly the list, in
order, and changes at most the socket list. -/
theorem foldl_sendAudioChunk_shape (l : List Chunk) :
    ∀ s : Sys, ∃ sk, l.foldl useAudioWebSocket_sendAudioChunk s
      = { s with sockets := sk, chunkSendCalls := s.chunkSendCalls ++ l } := by
  induction l with
  | nil => intro s; exact ⟨s.sockets, by cases s; simp⟩
  | cons c rest ih =>
    intro s
    obtain ⟨sk1, h1⟩ := sendAudioChunk_shape s c
    obtain ⟨sk2, h2⟩ := ih { s with sockets := sk1, chunkSendCalls := s.chunkSendCalls ++ [c] }
    refine ⟨sk2, ?_⟩
    simp only [List.foldl_cons, h1, h2]
    cases s; simp

/-- The flush effect changes at most the sockets, the buffer, the
buffering flag and the send-call log. -/
theorem flushEffect_shape (s : Sys) :
    ∃ sk bf ib csc, flushEffect s
      = { s with sockets := sk, buffered := bf, isBuffering := ib, chunkSendCalls := csc } := by
  unfold flushEffect
  by_cases h : flushCond s
  · rw [if_pos h]
    obtain ⟨sk, hf⟩ := foldl_sendAudioChunk_shape s.buffered s
    refine ⟨sk, [], false, s.chunkSendCalls ++ s.buffered, ?_⟩
    rw [hf]
  · rw [if_neg h]
    exact ⟨s.sockets, s.buffered, s.isBuffering, s.chunkSendCalls, by cases s; rfl⟩

/-- The flush effect is a no-op unless its guard holds. -/
theorem flushEffect_not (s : Sys) (h : ¬ flushCond s) : flushEffect s = s := by
  unfold flushEffect; rw [if_neg h]

/-- After the flush effect the guard never holds (the buffer is empty
or the state was untouched). -/
theorem notFlushCond_flushEffect (s : Sys) : ¬ flushCond (flushEffect s) := by
  by_cases h : flushCond s
  · unfold flushEffect
    rw [if_pos h]
    intro hc
    exact hc.2.2 rfl
  · rw [flushEffect_not s h]; exact h

/-- The flush effect is idempotent. -/
theorem flushEffect_idem (s : Sys) : flushEffect (flushEffect s) = flushEffect s :=
  flushEffect_not _ (notFlushCond_flushEffect s)

/-- `handleAudioChunk` while the channel is not connected: append to
the buffer and raise the buffering flag. -/
theorem handleAudioChunk_notConnected (s : Sys) (c : Chunk)
    (h : s.wsStatus ≠ WSStatus.connected) :
    handleAudioChunk s c = { s with buffered := s.buffered ++ [c], isBuffering := true } := by
  unfold handleAudioChunk; rw [if_neg h]

/-- Override of the event-loop queues, used to state that the relay
handlers neither read nor write the queues. -/
def withQ (s : Sys) (ts tm : List Job) : Sys := { s with tasks := ts, timers := tm }

theorem withQ_eta (s : Sys) : withQ s s.tasks s.timers = s := by cases s; rfl

theorem refOpenSock_withQ (s : Sys) (ts tm : List Job) :
    refOpenSock (withQ s ts tm) = refOpenSock s := rfl

theorem sendOnRef_withQ (s : Sys) (m : WireMsg) (ts tm : List Job) :
    sendOnRef (withQ s ts tm) m = withQ (sendOnRef s m) ts tm := by
  unfold sendOnRef
  rw [refOpenSock_withQ]
  split
  · split
    · rfl
    · rfl
  · rfl

theorem sendAudioChunk_withQ (s : Sys) (c : Chunk) (ts tm : List Job) :
    useAudioWebSocket_sendAudioChunk (withQ s ts tm) c
      = withQ (useAudioWebSocket_sendAudioChunk s c) ts tm := by
  unfold useAudioWebSocket_sendAudioChunk
  exact sendOnRef_withQ { s with chunkSendCalls := s.chunkSendCalls ++ [c] } (WireMsg.bin c) ts tm

theorem handleAudioChunk_withQ (s : Sys) (c : Chunk) (ts tm : List Job) :
    handleAudioChunk (withQ s ts tm) c = withQ (handleAudioChunk s c) ts tm := by
  unfold handleAudioChunk
  by_cases h : s.wsStatus = WSStatus.connected
  · rw [if_pos h, if_pos (show (withQ s ts tm).wsStatus = WSStatus.connected from h)]
    exact sendAudioChunk_withQ s c ts tm
  · rw [if_neg h, if_neg (show ¬ (withQ s ts tm).wsStatus = WSStatus.connected from h)]
    rfl

theorem mrDataAvailable_withQ (s : Sys) (c : Option Chunk) (ts tm : List Job) :
    mrDataAvailable (withQ s ts tm) c = withQ (mrDataAvailable s c) ts tm := by
  cases c with
  | none => rfl
  | some ch =>
    unfold mrDataAvailable
    exact handleAudioChunk_withQ { s with audioChunks := s.audioChunks ++ [ch] } ch ts tm

theorem foldl_sendAudioChunk_withQ (l : List Chunk) :
    ∀ (s : Sys) (ts tm : List Job),
      l.foldl useAudioWebSocket_sendAudioChunk (withQ s ts tm)
        = withQ (l.foldl useAudioWebSocket_sendAudioChunk s) ts tm := by
  induction l with
  | nil => intro s ts tm; rfl
  | cons c rest ih =>
    intro s ts tm
    simp only [List.foldl_cons, sendAudioChunk_withQ]
    exact ih _ ts tm

theorem flushCond_withQ (s : Sys) (ts tm : List Job) :
    flushCond (withQ s ts tm) ↔ flushCond s := Iff.rfl

theorem flushEffect_withQ (s : Sys) (ts tm : List Job) :
    flushEffect (withQ s ts tm) = withQ (flushEffect s) ts tm := by
  unfold flushEffect
  by_cases h : flushCond s
  · rw [if_pos h, if_pos ((flushCond_withQ s ts tm).mpr h)]
    show ({ (withQ s ts tm).buffered.foldl useAudioWebSocket_sendAudioChunk (withQ s ts tm)
             with buffered := [], isBuffering := false } : Sys) = _
    rw [show (withQ s ts tm).buffered = s.buffered from rfl, foldl_sendAudioChunk_withQ]
    rfl
  · rw [if_neg h, if_neg (fun hc => h ((flushCond_withQ s ts tm).mp hc))]

theorem mrOnStop_withQ (s : Sys) (ts tm : List Job) :
    mrOnStop (withQ s ts tm) = withQ (mrOnStop s) ts tm := by
  unfold mrOnStop
  by_cases h : s.audioChunks = []
  · rw [if_pos h, if_pos (show (withQ s ts tm).audioChunks = [] from h)]; rfl
  · rw [if_neg h, if_neg (show ¬ (withQ s ts tm).audioChunks = [] from h)]; rfl

/-- Override of the pending-timer queue only. -/
def withT (s : Sys) (tm : List Job) : Sys := { s with timers := tm }

theorem withT_eta (s : Sys) : withT s s.timers = s := by cases s; rfl

theorem mrStop_withT (s : Sys) (tm : List Job) :
    mrStop (withT s tm) = withT (mrStop s) tm := by
  obtain ⟨rec, url, err, strm, tsc, dac, mr, ach, wss, ps, sks, ref, buf, isb, fin,
    tok, sup, mic, ts0, tm0, csc⟩ := s
  cases mr with
  | none => rfl
  | some m => cases m with | mk ph pd => cases ph <;> rfl

theorem stopTracks_withT (s : Sys) (tm : List Job) :
    stopTracks (withT s tm) = withT (stopTracks s) tm := by
  obtain ⟨rec, url, err, strm, tsc, dac, mr, ach, wss, ps, sks, ref, buf, isb, fin,
    tok, sup, mic, ts0, tm0, csc⟩ := s
  cases strm <;> rfl

theorem stopTimerBody_withT (s : Sys) (tm : List Job) :
    stopTimerBody (withT s tm) = withT (stopTimerBody s) tm := by
  unfold stopTimerBody
  rw [mrStop_withT]
  exact stopTracks_withT { mrStop s with recording := false } tm

/-- Unfolding `tick` when a task is queued. -/
theorem tick_cons (s : Sys) (t : Job) (ts : List Job) (h : s.tasks = t :: ts) :
    tick s = flushEffect (runTask { s with tasks := ts } t) := by
  unfold tick; rw [h]

/-- Unfolding `tick` when only a timer is pending. -/
theorem tick_timer (s : Sys) (t : Job) (ts : List Job)
    (h1 : s.tasks = []) (h2 : s.timers = t :: ts) :
    tick s = flushEffect (runTask { s with timers := ts } t) := by
  unfold tick; rw [h1, h2]

/-- `tick` on empty queues is the identity. -/
theorem tick_nil (s : Sys) (h1 : s.tasks = []) (h2 : s.timers = []) : tick s = s := by
  unfold tick; rw [h1, h2]

/-- While the channel is not connected, chunk events only accumulate
in the FIFO buffer (and raise the buffering flag); nothing is sent. -/
theorem bufferAccum (cs : List Chunk) :
    ∀ s : Sys, s.wsStatus ≠ WSStatus.connected →
      cs.foldl (fun u c => flushEffect (handleAudioChunk u c)) s
        = { s with buffered := s.buffered ++ cs, isBuffering := (s.isBuffering || !cs.isEmpty) } := by
  induction cs with
  | nil => intro s h; cases s; simp
  | cons c rest ih =>
    intro s h
    simp only [List.foldl_cons]
    rw [handleAudioChunk_notConnected s c h]
    have hBc : ¬ flushCond { s with buffered := s.buffered ++ [c], isBuffering := true } := by
      intro hc
      exact h hc.1
    rw [flushEffect_not _ hBc]
    rw [ih { s with buffered := s.buffered ++ [c], isBuffering := true } h]
    cases s; simp

/-- The handshake frame only sets the channel status to connected. -/
theorem wsOnMessage_connectedFrame (s : Sys) :
    wsOnMessage s connectedFrame = { s with wsStatus := WSStatus.connected } := rfl

/-- Unfolding the flush effect when its guard holds. -/
theorem flushEffect_full (s : Sys) (h1 : s.wsStatus = WSStatus.connected)
    (h2 : s.isBuffering = true) (h3 : s.buffered ≠ []) :
    flushEffect s = { s.buffered.foldl useAudioWebSocket_sendAudioChunk s with
                      buffered := [], isBuffering := false } := by
  unfold flushEffect
  rw [if_pos (show flushCond s from ⟨h1, h2, h3⟩)]

/-- Projection of `sendAudioChunk_shape`: each call appends its
argument to the send-call log. -/
theorem sendAudioChunk_calls (s : Sys) (c : Chunk) :
    (useAudioWebSocket_sendAudioChunk s c).chunkSendCalls = s.chunkSendCalls ++ [c] := by
  obtain ⟨sk, h⟩ := sendAudioChunk_shape s c
  rw [h]

/-- Projection of `foldl_sendAudioChunk_shape`: the send-call log
grows by exactly the folded list, in order. -/
theorem foldl_sendAudioChunk_calls (l : List Chunk) (s : Sys) :
    (l.foldl useAudioWebSocket_sendAudioChunk s).chunkSendCalls = s.chunkSendCalls ++ l := by
  obtain ⟨sk, h⟩ := foldl_sendAudioChunk_shape l s
  rw [h]

/-- C1: For every sequence of N chunks (N ≥ 0) emitted by the recorder
while the channel status is not connected, followed by the channel
transitioning to connected (the server's `connected` frame), every
buffered chunk is forwarded to `sendAudioChunk` exactly once, in
original arrival order (the send-call log grows by exactly the emitted
sequence), the buffer is empty, and the buffering flag is reset. -/
theorem c1_order_preservation (s : Sys) (cs : List Chunk)
    (hb : s.buffered = []) (hf : s.isBuffering = false)
    (hw : s.wsStatus ≠ WSStatus.connected) :
    ((step (Ev.sockMsg connectedFrame)
        (cs.foldl (fun u c => flushEffect (handleAudioChunk u c)) s)).chunkSendCalls,
     (step (Ev.sockMsg connectedFrame)
        (cs.foldl (fun u c => flushEffect (handleAudioChunk u c)) s)).buffered,
     (step (Ev.sockMsg connectedFrame)
        (cs.foldl (fun u c => flushEffect (handleAudioChunk u c)) s)).isBuffering)
      = (s.chunkSendCalls ++ cs, ([] : List Chunk), false) := by
  have hstep : step (Ev.sockMsg connectedFrame)
      (cs.foldl (fun u c => flushEffect (handleAudioChunk u c)) s)
      = flushEffect (wsOnMessage
          (cs.foldl (fun u c => flushEffect (handleAudioChunk u c)) s) connectedFrame) := rfl
  rw [hstep, bufferAccum cs s hw, wsOnMessage_connectedFrame]
  cases cs with
  | nil =>
    rw [flushEffect_not _ (fun hc => absurd hc.2.1 (by simp [hf]))]
    simp [hb, hf]
  | cons c rest =>
    rw [flushEffect_full _ rfl (by simp) (by simp [hb])]
    simp [foldl_sendAudioChunk_calls, sendAudioChunk_calls, hb]

/-- Witness for C1 at a concrete disconnected initial state and three
chunks. -/
theorem c1_witness :
    ((init (some "t")).buffered = [] ∧ (init (some "t")).isBuffering = false
      ∧ (init (some "t")).wsStatus ≠ WSStatus.connected)
    ∧ ((step (Ev.sockMsg connectedFrame)
        ([1, 2, 3].foldl (fun u c => flushEffect (handleAudioChunk u c)) (init (some "t")))).chunkSendCalls,
       (step (Ev.sockMsg connectedFrame)
        ([1, 2, 3].foldl (fun u c => flushEffect (handleAudioChunk u c)) (init (some "t")))).buffered,
       (step (Ev.sockMsg connectedFrame)
        ([1, 2, 3].foldl (fun u c => flushEffect (handleAudioChunk u c)) (init (some "t")))).isBuffering)
      = ((init (some "t")).chunkSendCalls ++ [1, 2, 3], ([] : List Chunk), false) :=
  ⟨⟨rfl, rfl, by decide⟩, c1_order_preservation (init (some "t")) [1, 2, 3] rfl rfl (by decide)⟩

/-! ## C2, C4: evaluating the code at the failing inputs -/

/-- C2: The claim that no chunk captured before `cancel()` is ever
passed to `sendChunk` afterwards fails on the code: the buffer is
cleared by `cancelRecording`, but the final `dataavailable` event the
MediaRecorder fires because the cancel stopped it is still delivered
to `handleAudioChunk`, which forwards the pre-cancel audio to
`sendAudioChunk` (here chunk `7`, transmitted on the wire after the
`recording_cancelled` control message). -/
theorem c2_final_chunk_leak :
    c2Cancelled.buffered = []
    ∧ c2Cancelled.chunkSendCalls = []
    ∧ (step Ev.tick c2Cancelled).chunkSendCalls = [7]
    ∧ (step Ev.tick c2Cancelled).sockets
        = [{ readyState := RS.opened,
             sent := [WireMsg.ctl "recording_cancelled", WireMsg.bin 7],
             failSend := false }] := by
  decide

/-- C4: Evaluating the code at a `completed` frame without a
`task_set_id`: the processing status is updated, but no finished event
fires and no error condition of any kind is raised — the message is a
silent no-op apart from the status banner, contradicting the claim
that a protocol error is surfaced. -/
theorem c4_silent_without_id :
    c4Run.processingStatus = some ProcStatus.completed
    ∧ c4Run.finishedEvents = []
    ∧ c4Run.recError = none
    ∧ c4Run.wsStatus = WSStatus.connected := by
  decide

/-! ## C5: start while recording -/

/-- C5 counterexample: calling the hook's `startRecording` while a
recording is active is a silent no-op — the state is unchanged and in
particular no `AlreadyRecording` (nor any other) error is raised,
refuting the claim that the call fails with `AlreadyRecording`. -/
theorem c5_counterexample :
    c5Recording.recording = true
    ∧ useRecorder_startRecording c5Recording = c5Recording
    ∧ (useRecorder_startRecording c5Recording).recError = none := by
  decide

/-- C5 (amended): calling `startRecording` while a recording is active
is a silent no-op: the whole state is unchanged, so no error is set
and no second microphone device handle is acquired. -/
theorem c5_amended_silent_noop (s : Sys) (h : s.recording = true) :
    useRecorder_startRecording s = s := by
  unfold useRecorder_startRecording
  rw [if_pos (by rw [h])]

/-- Witness for the amended C5 theorem at a concrete recording state. -/
theorem c5_witness :
    c5Recording.recording = true
    ∧ useRecorder_startRecording c5Recording = c5Recording :=
  ⟨by decide, c5_amended_silent_noop c5Recording (by decide)⟩

/-! ## C7: sendChunk outside Connected, and swallowed send failures -/

/-- C7: `sendAudioChunk` is a total function (it can neither throw nor
block), and (a) whenever no referenced socket is OPEN it transmits
nothing — the state is unchanged apart from the call log — and (b)
when the referenced socket is OPEN but the platform `send` throws, the
failure is swallowed and the state is likewise unchanged apart from
the call log, so the session continues. -/
theorem c7_sendChunk_noop (s : Sys) (c : Chunk) :
    (refOpenSock s = none →
      useAudioWebSocket_sendAudioChunk s c
        = { s with chunkSendCalls := s.chunkSendCalls ++ [c] })
    ∧ (∀ i k, refOpenSock s = some (i, k) → k.failSend = true →
      useAudioWebSocket_sendAudioChunk s c
        = { s with chunkSendCalls := s.chunkSendCalls ++ [c] }) := by
  have hro : refOpenSock { s with chunkSendCalls := s.chunkSendCalls ++ [c] }
      = refOpenSock s := rfl
  constructor
  · intro h
    unfold useAudioWebSocket_sendAudioChunk sendOnRef
    rw [hro, h]
  · intro i k h hf
    unfold useAudioWebSocket_sendAudioChunk sendOnRef
    rw [hro, h]
    simp [rawSend, hf]

/-- Witness for C7 at a state with no referenced socket and at a state
whose referenced OPEN socket throws on send. -/
theorem c7_witness :
    (refOpenSock c7StateA = none
      ∧ useAudioWebSocket_sendAudioChunk c7StateA 5
          = { c7StateA with chunkSendCalls := c7StateA.chunkSendCalls ++ [5] })
    ∧ (refOpenSock c7StateB
          = some (0, { readyState := RS.opened, sent := [], failSend := true })
      ∧ useAudioWebSocket_sendAudioChunk c7StateB 5
          = { c7StateB with chunkSendCalls := c7StateB.chunkSendCalls ++ [5] }) :=
  ⟨⟨by decide, (c7_sendChunk_noop c7StateA 5).1 (by decide)⟩,
   ⟨by decide,
    (c7_sendChunk_noop c7StateB 5).2 0
      { readyState := RS.opened, sent := [], failSend := true } (by decide) rfl⟩⟩

/-! ## C8: at most one open channel -/

/-- C8 counterexample: calling `connect()` again while the previous
socket is still in its CONNECTING handshake does not close it (the
close is guarded by `readyState === OPEN`), so after both handshakes
complete the controller has created two simultaneously open sockets. -/
theorem c8_counterexample :
    c8Run.sockets.map (fun k => k.readyState) = [RS.opened, RS.opened]
    ∧ (c8Run.sockets.countP (fun k => decide (k.readyState = RS.opened))) = 2 := by
  decide

/-- Inversion of `refOpenSock`. -/
theorem refOpenSock_some (s : Sys) (i : Nat) (k : Sock)
    (h : refOpenSock s = some (i, k)) :
    s.wsRef = some i ∧ s.sockets.get? i = some k ∧ k.readyState = RS.opened := by
  unfold refOpenSock at h
  split at h
  · split at h
    · split at h
      · rename_i x0 j hwj y0 k0 hk hr
        have h2 := Option.some.inj h
        have hj : j = i := congrArg Prod.fst h2
        have hk2 : k0 = k := congrArg Prod.snd h2
        subst hj
        subst hk2
        exact ⟨hwj, hk, hr⟩
      · exact absurd h (by simp)
    · exact absurd h (by simp)
  · exact absurd h (by simp)

/-- `connectWebSocket` with a token and no OPEN referenced socket. -/
theorem connectWebSocket_noOpen (s : Sys) (tok : String)
    (h : s.token = some tok) (hro : refOpenSock s = none) :
    useAudioWebSocket_connectWebSocket s
      = { s with wsStatus := WSStatus.connecting,
                 sockets := s.sockets ++ [{ readyState := RS.connecting, sent := [], failSend := false }],
                 wsRef := some s.sockets.length } := by
  unfold useAudioWebSocket_connectWebSocket
  split
  · rename_i htok
    rw [htok] at h
    exact absurd h (by simp)
  · rw [hro]

/-- `connectWebSocket` with a token and an OPEN referenced socket:
that socket is closed first. -/
theorem connectWebSocket_open (s : Sys) (tok : String) (i : Nat) (k : Sock)
    (h : s.token = some tok) (hro : refOpenSock s = some (i, k)) :
    useAudioWebSocket_connectWebSocket s
      = { s with wsStatus := WSStatus.connecting,
                 sockets := (s.sockets.set i { k with readyState := RS.closing })
                   ++ [{ readyState := RS.connecting, sent := [], failSend := false }],
                 wsRef := some (s.sockets.set i { k with readyState := RS.closing }).length } := by
  unfold useAudioWebSocket_connectWebSocket
  split
  · rename_i htok
    rw [htok] at h
    exact absurd h (by simp)
  · rw [hro]

/-- C8 (amended): with an auth token, `connect()` sets the status to
Connecting, references a single freshly created CONNECTING socket, and
closes the previously referenced socket provided that socket was
already OPEN.  (As the counterexample shows, a previous socket still
in its handshake is not closed, so the one-open-channel invariant can
be violated by a reconnect during the handshake.) -/
theorem c8_amended_connect (s : Sys) (tok : String) (h : s.token = some tok) :
    (useAudioWebSocket_connectWebSocket s).wsStatus = WSStatus.connecting
    ∧ (useAudioWebSocket_connectWebSocket s).wsRef = some s.sockets.length
    ∧ (useAudioWebSocket_connectWebSocket s).sockets.get? s.sockets.length
        = some { readyState := RS.connecting, sent := [], failSend := false }
    ∧ (∀ i k, refOpenSock s = some (i, k) →
        (useAudioWebSocket_connectWebSocket s).sockets.get? i
          = some { k with readyState := RS.closing }) := by
  rcases hro : refOpenSock s with _ | ⟨i0, k0⟩
  · rw [connectWebSocket_noOpen s tok h hro]
    refine ⟨rfl, rfl, List.get?_concat_length _ _, ?_⟩
    intro i k hik
    exact absurd hik (by simp)
  · rw [connectWebSocket_open s tok i0 k0 h hro]
    obtain ⟨hw0, hk0, hr0⟩ := refOpenSock_some s i0 k0 hro
    have hlt : i0 < s.sockets.length := (List.get?_eq_some.mp hk0).1
    refine ⟨rfl, by simp, ?_, ?_⟩
    · rw [show s.sockets.length
          = (s.sockets.set i0 { k0 with readyState := RS.closing }).length from by simp]
      exact List.get?_concat_length _ _
    · intro i k hik
      have h2 := Option.some.inj hik
      have hi : i0 = i := congrArg Prod.fst h2
      have hkk : k0 = k := congrArg Prod.snd h2
      subst hi
      subst hkk
      have hlt2 : i0 < (s.sockets.set i0 { k0 with readyState := RS.closing }).length := by
        simpa using hlt
      rw [List.get?_append hlt2, List.get?_set_eq_of_lt]
      exact hlt

/-- Witness for the amended C8 theorem at a concrete state whose
referenced socket is OPEN. -/
theorem c8_witness :
    c8Connected.token = some "t"
    ∧ ((useAudioWebSocket_connectWebSocket c8Connected).wsStatus = WSStatus.connecting
      ∧ (useAudioWebSocket_connectWebSocket c8Connected).wsRef = some c8Connected.sockets.length
      ∧ (useAudioWebSocket_connectWebSocket c8Connected).sockets.get? c8Connected.sockets.length
          = some { readyState := RS.connecting, sent := [], failSend := false }
      ∧ (∀ i k, refOpenSock c8Connected = some (i, k) →
          (useAudioWebSocket_connectWebSocket c8Connected).sockets.get? i
            = some { k with readyState := RS.closing })) :=
  ⟨by decide, c8_amended_connect c8Connected "t" (by decide)⟩

/-! ## C3: session-finished events -/

/-- The flush effect never fires finished events. -/
theorem flushEffect_finished (s : Sys) :
    (flushEffect s).finishedEvents = s.finishedEvents := by
  obtain ⟨sk, bf, ib, csc, h⟩ := flushEffect_shape s
  rw [h]

/-- One inbound frame appends exactly the task-set ids of its
`completed` payload (none for every other frame) to the finished
events. -/
theorem wsOnMessage_finished (s : Sys) (f : Frame) :
    (wsOnMessage s f).finishedEvents
      = s.finishedEvents ++ (completedTaskId f).toList := by
  cases f with
  | malformed => simp [wsOnMessage, completedTaskId]
  | obj typ st tid =>
    by_cases h1 : typ = "status"
    case neg => simp [wsOnMessage, completedTaskId, h1]
    subst h1
    by_cases h2 : st = "connected"
    · subst h2; simp [wsOnMessage, completedTaskId]
    by_cases h3 : st = "recording_received"
    · subst h3; simp [wsOnMessage, completedTaskId, handleStatusChange]
    by_cases h4 : st = "verifying"
    · subst h4; simp [wsOnMessage, completedTaskId, handleStatusChange]
    by_cases h5 : st = "processing"
    · subst h5; simp [wsOnMessage, completedTaskId, handleStatusChange]
    by_cases h6 : st = "completed"
    · subst h6
      cases tid <;> simp [wsOnMessage, completedTaskId, handleStatusChange]
    by_cases h7 : st = "recording_cancelled"
    · subst h7; simp [wsOnMessage, completedTaskId, handleStatusChange]
    simp [wsOnMessage, completedTaskId, h2, h3, h4, h5, h6, h7]

/-- Processing a sequence of inbound frames appends exactly the ids of
its `completed`-with-id frames, in order. -/
theorem run_sockMsg_finished (fs : List Frame) :
    ∀ s : Sys, (run (fs.map Ev.sockMsg) s).finishedEvents
      = s.finishedEvents ++ fs.filterMap completedTaskId := by
  induction fs with
  | nil => intro s; simp [run]
  | cons f rest ih =>
    intro s
    have hstep : run ((f :: rest).map Ev.sockMsg) s
        = run (rest.map Ev.sockMsg) (flushEffect (wsOnMessage s f)) := rfl
    rw [hstep, ih, flushEffect_finished, wsOnMessage_finished]
    cases h : completedTaskId f <;> simp [List.filterMap_cons, h]

/-- C3 counterexample: a sequence with a `processing` frame and two
`completed` frames carrying the same task-set id fires the
session-finished event twice, not exactly once. -/
theorem c3_counterexample :
    c3Run.finishedEvents = ["abc123", "abc123"]
    ∧ c3Run.finishedEvents.length ≠ 1 := by
  decide

/-- C3 (amended): within one recording attempt, one session-finished
event fires per `completed` status message carrying a task-set id —
the finished-event sequence equals those ids in order — so for a
message sequence containing exactly one `completed` message with an
id (and any number of `processing` or other messages), exactly one
finished event fires, carrying that id. -/
theorem c3_amended_finished (s : Sys) (fs : List Frame)
    (h0 : s.finishedEvents = []) :
    (run (fs.map Ev.sockMsg) s).finishedEvents = fs.filterMap completedTaskId := by
  rw [run_sockMsg_finished fs s, h0]
  rfl

/-- Witness for the amended C3 theorem: repeated `processing` frames
followed by a single `completed` frame yield exactly one finished
event with its id. -/
theorem c3_witness :
    (init (some "t")).finishedEvents = []
    ∧ (run ([Frame.obj "status" "processing" none,
             Frame.obj "status" "processing" none,
             Frame.obj "status" "completed" (some "abc123")].map Ev.sockMsg)
        (init (some "t"))).finishedEvents
      = [Frame.obj "status" "processing" none,
         Frame.obj "status" "processing" none,
         Frame.obj "status" "completed" (some "abc123")].filterMap completedTaskId :=
  ⟨rfl, c3_amended_finished (init (some "t")) _ rfl⟩

/-! ## C10: connected only via the server's frame -/

theorem sendOnRef_wsStatus (s : Sys) (m : WireMsg) :
    (sendOnRef s m).wsStatus = s.wsStatus := by
  obtain ⟨sk, h⟩ := sendOnRef_shape s m
  rw [h]

theorem sendAudioChunk_wsStatus (s : Sys) (c : Chunk) :
    (useAudioWebSocket_sendAudioChunk s c).wsStatus = s.wsStatus := by
  obtain ⟨sk, h⟩ := sendAudioChunk_shape s c
  rw [h]

theorem sendStatusMessage_wsStatus (s : Sys) (st : String) :
    (useAudioWebSocket_sendStatusMessage s st).wsStatus = s.wsStatus :=
  sendOnRef_wsStatus s (WireMsg.ctl st)

theorem handleAudioChunk_wsStatus (s : Sys) (c : Chunk) :
    (handleAudioChunk s c).wsStatus = s.wsStatus := by
  unfold handleAudioChunk
  split
  · exact sendAudioChunk_wsStatus s c
  · rfl

theorem flushEffect_wsStatus (s : Sys) :
    (flushEffect s).wsStatus = s.wsStatus := by
  obtain ⟨sk, bf, ib, csc, h⟩ := flushEffect_shape s
  rw [h]

theorem mrDataAvailable_wsStatus (s : Sys) (c : Option Chunk) :
    (mrDataAvailable s c).wsStatus = s.wsStatus := by
  cases c with
  | none => rfl
  | some ch => exact handleAudioChunk_wsStatus { s with audioChunks := s.audioChunks ++ [ch] } ch

theorem mrOnStop_wsStatus (s : Sys) : (mrOnStop s).wsStatus = s.wsStatus := by
  unfold mrOnStop
  split <;> rfl

theorem mrStop_wsStatus (s : Sys) : (mrStop s).wsStatus = s.wsStatus := by
  unfold mrStop
  repeat' split
  all_goals rfl

theorem stopTracks_wsStatus (s : Sys) : (stopTracks s).wsStatus = s.wsStatus := by
  unfold stopTracks
  split <;> rfl

theorem stopTimerBody_wsStatus (s : Sys) : (stopTimerBody s).wsStatus = s.wsStatus := by
  unfold stopTimerBody
  rw [stopTracks_wsStatus]
  exact mrStop_wsStatus s

theorem handleStatusChange_wsStatus (s : Sys) (st : ProcStatus) (tid : Option String) :
    (handleStatusChange s st tid).wsStatus = s.wsStatus := by
  unfold handleStatusChange
  repeat' split
  all_goals rfl

theorem useRecorder_startRecording_wsStatus (s : Sys) :
    (useRecorder_startRecording s).wsStatus = s.wsStatus := by
  obtain ⟨rec, url, err, strm, tsc, dac, mr, ach, wss, ps, sks, ref, buf, isb, fin,
    tok, sup, mic, ts0, tm0, csc⟩ := s
  cases rec <;> cases sup <;> cases mic <;> rfl

theorem useRecorder_stopRecording_wsStatus (s : Sys) :
    (useRecorder_stopRecording s).wsStatus = s.wsStatus := by
  unfold useRecorder_stopRecording
  repeat' split
  all_goals rfl

theorem useRecorder_cancelRecording_wsStatus (s : Sys) :
    (useRecorder_cancelRecording s).wsStatus = s.wsStatus := by
  unfold useRecorder_cancelRecording
  split
  · rfl
  · rw [stopTracks_wsStatus]
    exact mrStop_wsStatus s

theorem runTask_wsStatus (s : Sys) (t : Job) : (runTask s t).wsStatus = s.wsStatus := by
  cases t with
  | tDataAvail c => exact mrDataAvailable_wsStatus s c
  | tOnStop => exact mrOnStop_wsStatus s
  | tStopTimer => exact stopTimerBody_wsStatus s
  | tSendCompleted => exact sendStatusMessage_wsStatus s "recording_completed"

theorem tick_wsStatus (s : Sys) : (tick s).wsStatus = s.wsStatus := by
  unfold tick
  repeat' split
  all_goals first
    | rfl
    | (rw [flushEffect_wsStatus, runTask_wsStatus])

theorem setReady_wsStatus (s : Sys) (i : Nat) (r : RS) :
    (setReady s i r).wsStatus = s.wsStatus := by
  unfold setReady
  split <;> rfl

theorem connectWebSocket_wsStatus_or (s : Sys) :
    (useAudioWebSocket_connectWebSocket s).wsStatus = WSStatus.connecting
    ∨ (useAudioWebSocket_connectWebSocket s).wsStatus = s.wsStatus := by
  unfold useAudioWebSocket_connectWebSocket
  split
  · exact Or.inr rfl
  · exact Or.inl rfl

theorem wsOnMessage_wsStatus_of_ne (s : Sys) (typ st : String) (tid : Option String)
    (hne : ¬(typ = "status" ∧ st = "connected")) :
    (wsOnMessage s (Frame.obj typ st tid)).wsStatus = s.wsStatus := by
  simp only [wsOnMessage]
  by_cases h1 : typ = "status"
  · rw [if_pos h1]
    by_cases h2 : st = "connected"
    · exact absurd ⟨h1, h2⟩ hne
    rw [if_neg h2]
    split_ifs <;> first | rfl | exact handleStatusChange_wsStatus _ _ _
  · rw [if_neg h1]

theorem audioRecorder_cancelRecording_wsStatus (s : Sys) :
    (audioRecorder_cancelRecording s).wsStatus = s.wsStatus := by
  show (if ({ useRecorder_cancelRecording s with
        buffered := [], isBuffering := false } : Sys).wsStatus = WSStatus.connected
      then useAudioWebSocket_sendStatusMessage
        ({ useRecorder_cancelRecording s with
          buffered := [], isBuffering := false } : Sys) "recording_cancelled"
      else ({ useRecorder_cancelRecording s with
        buffered := [], isBuffering := false } : Sys)).wsStatus
      = s.wsStatus
  split
  · rw [sendStatusMessage_wsStatus]
    exact useRecorder_cancelRecording_wsStatus s
  · exact useRecorder_cancelRecording_wsStatus s

theorem audioRecorder_startRecording_wsStatus_inv (s : Sys)
    (h : (audioRecorder_startRecording s).wsStatus = WSStatus.connected) :
    s.wsStatus = WSStatus.connected := by
  unfold audioRecorder_startRecording at h
  rw [useRecorder_startRecording_wsStatus] at h
  rcases connectWebSocket_wsStatus_or { s with buffered := [], isBuffering := false } with hc | hc
  · rw [hc] at h
    exact absurd h (by decide)
  · rw [hc] at h
    exact h

theorem audioRecorder_stopRecording_wsStatus_inv (s : Sys)
    (h : (audioRecorder_stopRecording s).wsStatus = WSStatus.connected) :
    s.wsStatus = WSStatus.connected := by
  unfold audioRecorder_stopRecording at h
  rw [show (({ useRecorder_stopRecording
        (if s.wsStatus = WSStatus.connected then s else useAudioWebSocket_connectWebSocket s) with
        timers := (useRecorder_stopRecording
        (if s.wsStatus = WSStatus.connected then s else useAudioWebSocket_connectWebSocket s)).timers
          ++ [Job.tSendCompleted] } : Sys)).wsStatus
      = (useRecorder_stopRecording
        (if s.wsStatus = WSStatus.connected then s
         else useAudioWebSocket_connectWebSocket s)).wsStatus from rfl,
     useRecorder_stopRecording_wsStatus] at h
  by_cases hc : s.wsStatus = WSStatus.connected
  · exact hc
  · rw [if_neg hc] at h
    rcases connectWebSocket_wsStatus_or s with hc2 | hc2
    · rw [hc2] at h
      exact absurd h (by decide)
    · rw [hc2] at h
      exact h

/-- Handling any single event can set the channel status to connected
only if it was already connected or the event is the arrival of a
server frame `{"type":"status","status":"connected"}`. -/
theorem handleEv_connected_inv (s : Sys) (e : Ev)
    (h : (handleEv s e).wsStatus = WSStatus.connected) :
    s.wsStatus = WSStatus.connected
    ∨ ∃ tid, e = Ev.sockMsg (Frame.obj "status" "connected" tid) := by
  cases e with
  | capture c =>
    refine Or.inl ?_
    revert h
    simp only [handleEv]
    repeat' split
    all_goals exact fun h2 => h2
  | emit c =>
    refine Or.inl ?_
    revert h
    simp only [handleEv]
    repeat' split
    · intro h2
      rw [mrDataAvailable_wsStatus] at h2
      exact h2
    · exact fun h2 => h2
    · exact fun h2 => h2
  | userStart => exact Or.inl (audioRecorder_startRecording_wsStatus_inv s h)
  | userStop => exact Or.inl (audioRecorder_stopRecording_wsStatus_inv s h)
  | userCancel =>
    refine Or.inl ?_
    rw [show handleEv s Ev.userCancel = audioRecorder_cancelRecording s from rfl,
      audioRecorder_cancelRecording_wsStatus] at h
    exact h
  | sockOpen i =>
    refine Or.inl ?_
    revert h
    simp only [handleEv]
    repeat' split
    · intro h2
      rw [setReady_wsStatus] at h2
      exact h2
    · exact fun h2 => h2
    · exact fun h2 => h2
  | sockErr i =>
    refine Or.inl ?_
    revert h
    simp only [handleEv]
    repeat' split
    · exact fun h2 => WSStatus.noConfusion h2
    · exact fun h2 => h2
  | sockClose i =>
    refine Or.inl ?_
    revert h
    simp only [handleEv]
    repeat' split
    · exact fun h2 => WSStatus.noConfusion h2
    · exact fun h2 => h2
  | sockMsg f =>
    cases f with
    | malformed => exact Or.inl h
    | obj typ st tid =>
      by_cases hc : typ = "status" ∧ st = "connected"
      · exact Or.inr ⟨tid, by rw [hc.1, hc.2]⟩
      · rw [show handleEv s (Ev.sockMsg (Frame.obj typ st tid))
            = wsOnMessage s (Frame.obj typ st tid) from rfl,
          wsOnMessage_wsStatus_of_ne s typ st tid hc] at h
        exact Or.inl h
  | tick => exact Or.inl h

/-- C10: The channel status never becomes connected merely because the
socket opened: across every event of the system, a step can change the
status to connected only on receipt of a server frame
`{"type":"status","status":"connected"}`; and concretely a run in which
the socket opens without that frame leaves the status at connecting,
so chunks keep buffering. -/
theorem c10_connected_only_by_frame :
    (∀ (s : Sys) (e : Ev), (step e s).wsStatus = WSStatus.connected →
      s.wsStatus = WSStatus.connected
      ∨ ∃ tid, e = Ev.sockMsg (Frame.obj "status" "connected" tid))
    ∧ c10Run.wsStatus = WSStatus.connecting := by
  constructor
  · intro s e h
    cases e with
    | tick =>
      rw [show step Ev.tick s = tick s from rfl, tick_wsStatus] at h
      exact Or.inl h
    | capture c =>
      rw [show step (Ev.capture c) s = flushEffect (handleEv s (Ev.capture c)) from rfl,
        flushEffect_wsStatus] at h
      exact handleEv_connected_inv s _ h
    | emit c =>
      rw [show step (Ev.emit c) s = flushEffect (handleEv s (Ev.emit c)) from rfl,
        flushEffect_wsStatus] at h
      exact handleEv_connected_inv s _ h
    | userStart =>
      rw [show step Ev.userStart s = flushEffect (handleEv s Ev.userStart) from rfl,
        flushEffect_wsStatus] at h
      exact handleEv_connected_inv s _ h
    | userStop =>
      rw [show step Ev.userStop s = flushEffect (handleEv s Ev.userStop) from rfl,
        flushEffect_wsStatus] at h
      exact handleEv_connected_inv s _ h
    | userCancel =>
      rw [show step Ev.userCancel s = flushEffect (handleEv s Ev.userCancel) from rfl,
        flushEffect_wsStatus] at h
      exact handleEv_connected_inv s _ h
    | sockOpen i =>
      rw [show step (Ev.sockOpen i) s = flushEffect (handleEv s (Ev.sockOpen i)) from rfl,
        flushEffect_wsStatus] at h
      exact handleEv_connected_inv s _ h
    | sockErr i =>
      rw [show step (Ev.sockErr i) s = flushEffect (handleEv s (Ev.sockErr i)) from rfl,
        flushEffect_wsStatus] at h
      exact handleEv_connected_inv s _ h
    | sockClose i =>
      rw [show step (Ev.sockClose i) s = flushEffect (handleEv s (Ev.sockClose i)) from rfl,
        flushEffect_wsStatus] at h
      exact handleEv_connected_inv s _ h
    | sockMsg f =>
      rw [show step (Ev.sockMsg f) s = flushEffect (handleEv s (Ev.sockMsg f)) from rfl,
        flushEffect_wsStatus] at h
      exact handleEv_connected_inv s _ h
  · decide

/-- Witness for C10 at a concrete connected state and a `tick` step. -/
theorem c10_witness :
    (step Ev.tick c10Connected).wsStatus = WSStatus.connected
    ∧ (c10Connected.wsStatus = WSStatus.connected
      ∨ ∃ tid, Ev.tick = Ev.sockMsg (Frame.obj "status" "connected" tid)) :=
  ⟨by decide, c10_connected_only_by_frame.1 c10Connected Ev.tick (by decide)⟩

/-! ## Machinery for the teardown claims (C6, C9) -/

theorem handleAudioChunk_shape (s : Sys) (c : Chunk) :
    ∃ sk bf ib csc, handleAudioChunk s c
      = { s with sockets := sk, buffered := bf, isBuffering := ib, chunkSendCalls := csc } := by
  unfold handleAudioChunk
  split
  · obtain ⟨sk, h⟩ := sendAudioChunk_shape s c
    exact ⟨sk, s.buffered, s.isBuffering, s.chunkSendCalls ++ [c], by rw [h]⟩
  · exact ⟨s.sockets, s.buffered ++ [c], true, s.chunkSendCalls, rfl⟩

theorem mrDataAvailable_shape (s : Sys) (c : Option Chunk) :
    ∃ ach sk bf ib csc, mrDataAvailable s c
      = { s with audioChunks := ach, sockets := sk, buffered := bf,
                 isBuffering := ib, chunkSendCalls := csc } := by
  cases c with
  | none =>
    exact ⟨s.audioChunks, s.sockets, s.buffered, s.isBuffering, s.chunkSendCalls, by cases s; rfl⟩
  | some ch =>
    obtain ⟨sk, bf, ib, csc, h⟩ :=
      handleAudioChunk_shape { s with audioChunks := s.audioChunks ++ [ch] } ch
    exact ⟨s.audioChunks ++ [ch], sk, bf, ib, csc, by
      rw [show mrDataAvailable s (some ch)
          = handleAudioChunk { s with audioChunks := s.audioChunks ++ [ch] } ch from rfl, h]⟩

theorem mrOnStop_shape (s : Sys) :
    ∃ err url, mrOnStop s = { s with recError := err, audioUrl := url } := by
  unfold mrOnStop
  split
  · exact ⟨some "No audio data recorded", s.audioUrl, by cases s; rfl⟩
  · exact ⟨s.recError, some s.audioChunks, by cases s; rfl⟩

theorem flushEffect_mr (s : Sys) : (flushEffect s).mr = s.mr := by
  obtain ⟨sk, bf, ib, csc, h⟩ := flushEffect_shape s; rw [h]

theorem flushEffect_recording (s : Sys) : (flushEffect s).recording = s.recording := by
  obtain ⟨sk, bf, ib, csc, h⟩ := flushEffect_shape s; rw [h]

theorem flushEffect_streamHeld (s : Sys) : (flushEffect s).streamHeld = s.streamHeld := by
  obtain ⟨sk, bf, ib, csc, h⟩ := flushEffect_shape s; rw [h]

theorem flushEffect_trackStopCount (s : Sys) :
    (flushEffect s).trackStopCount = s.trackStopCount := by
  obtain ⟨sk, bf, ib, csc, h⟩ := flushEffect_shape s; rw [h]

theorem flushEffect_audioChunks (s : Sys) : (flushEffect s).audioChunks = s.audioChunks := by
  obtain ⟨sk, bf, ib, csc, h⟩ := flushEffect_shape s; rw [h]

theorem flushEffect_audioUrl (s : Sys) : (flushEffect s).audioUrl = s.audioUrl := by
  obtain ⟨sk, bf, ib, csc, h⟩ := flushEffect_shape s; rw [h]

theorem flushEffect_recError (s : Sys) : (flushEffect s).recError = s.recError := by
  obtain ⟨sk, bf, ib, csc, h⟩ := flushEffect_shape s; rw [h]

theorem mrDataAvailable_mr (s : Sys) (c : Option Chunk) :
    (mrDataAvailable s c).mr = s.mr := by
  obtain ⟨ach, sk, bf, ib, csc, h⟩ := mrDataAvailable_shape s c; rw [h]

theorem mrDataAvailable_streamHeld (s : Sys) (c : Option Chunk) :
    (mrDataAvailable s c).streamHeld = s.streamHeld := by
  obtain ⟨ach, sk, bf, ib, csc, h⟩ := mrDataAvailable_shape s c; rw [h]

theorem mrDataAvailable_trackStopCount (s : Sys) (c : Option Chunk) :
    (mrDataAvailable s c).trackStopCount = s.trackStopCount := by
  obtain ⟨ach, sk, bf, ib, csc, h⟩ := mrDataAvailable_shape s c; rw [h]

theorem mrDataAvailable_audioUrl (s : Sys) (c : Option Chunk) :
    (mrDataAvailable s c).audioUrl = s.audioUrl := by
  obtain ⟨ach, sk, bf, ib, csc, h⟩ := mrDataAvailable_shape s c; rw [h]

theorem mrOnStop_isBuffering (s : Sys) : (mrOnStop s).isBuffering = s.isBuffering := by
  obtain ⟨err, url, h⟩ := mrOnStop_shape s; rw [h]

theorem mrOnStop_buffered (s : Sys) : (mrOnStop s).buffered = s.buffered := by
  obtain ⟨err, url, h⟩ := mrOnStop_shape s; rw [h]

theorem mrOnStop_recording (s : Sys) : (mrOnStop s).recording = s.recording := by
  obtain ⟨err, url, h⟩ := mrOnStop_shape s; rw [h]

theorem mrOnStop_mr (s : Sys) : (mrOnStop s).mr = s.mr := by
  obtain ⟨err, url, h⟩ := mrOnStop_shape s; rw [h]

theorem mrOnStop_streamHeld (s : Sys) : (mrOnStop s).streamHeld = s.streamHeld := by
  obtain ⟨err, url, h⟩ := mrOnStop_shape s; rw [h]

theorem mrOnStop_trackStopCount (s : Sys) :
    (mrOnStop s).trackStopCount = s.trackStopCount := by
  obtain ⟨err, url, h⟩ := mrOnStop_shape s; rw [h]

/-- A state whose flush-relevant fields agree with an already-flushed
state is itself a fixed point of the flush effect. -/
theorem flushEffect_after (z y : Sys)
    (hw : z.wsStatus = (flushEffect y).wsStatus)
    (hi : z.isBuffering = (flushEffect y).isBuffering)
    (hb : z.buffered = (flushEffect y).buffered) :
    flushEffect z = z := by
  apply flushEffect_not
  intro hc
  apply notFlushCond_flushEffect y
  refine ⟨?_, ?_, ?_⟩
  · rw [← hw]; exact hc.1
  · rw [← hi]; exact hc.2.1
  · rw [← hb]; exact hc.2.2

/-- Unfolding the hook's `stopRecording` from an active recording. -/
theorem stopRecording_active (u : Sys) (p : Option Chunk)
    (hrec : u.recording = true) (hmr : u.mr = some ⟨MRPhase.recording, p⟩) :
    useRecorder_stopRecording u
      = { u with mr := some ⟨MRPhase.recording, none⟩,
                 tasks := u.tasks ++ [Job.tDataAvail p],
                 timers := u.timers ++ [Job.tStopTimer] } := by
  obtain ⟨rec, url, err, strm, tsc, dac, mr, ach, wss, ps, sks, ref, buf, isb, fin,
    tok, sup, mic, ts0, tm0, csc⟩ := u
  subst hmr
  subst hrec
  rfl

/-- The hook's `stopRecording` is a no-op once the recording flag is
cleared. -/
theorem stopRecording_noop (u : Sys) (hrec : u.recording = false) :
    useRecorder_stopRecording u = u := by
  unfold useRecorder_stopRecording
  rw [if_pos (Or.inl hrec)]

/-- Unfolding the hook's `cancelRecording` from an active recording. -/
theorem cancelRecording_active (u : Sys) (p : Option Chunk)
    (hrec : u.recording = true) (hmr : u.mr = some ⟨MRPhase.recording, p⟩)
    (hstr : u.streamHeld = true) :
    useRecorder_cancelRecording u
      = { u with mr := some ⟨MRPhase.inactive, none⟩,
                 tasks := u.tasks ++ [Job.tDataAvail p, Job.tOnStop],
                 recording := false, audioUrl := none, audioChunks := [],
                 streamHeld := false, trackStopCount := u.trackStopCount + 1 } := by
  obtain ⟨rec, url, err, strm, tsc, dac, mr, ach, wss, ps, sks, ref, buf, isb, fin,
    tok, sup, mic, ts0, tm0, csc⟩ := u
  subst hmr
  subst hrec
  subst hstr
  rfl

/-- The hook's `cancelRecording` is a no-op once the recording flag is
cleared. -/
theorem cancelRecording_noop (u : Sys) (hrec : u.recording = false) :
    useRecorder_cancelRecording u = u := by
  unfold useRecorder_cancelRecording
  rw [if_pos (Or.inl hrec)]

/-- The stop-grace timer body on an active recorder with held tracks. -/
theorem stopTimerBody_withQ_active (u : Sys) (p2 : Option Chunk) (tm : List Job)
    (hmr : u.mr = some ⟨MRPhase.recording, p2⟩) (hstr : u.streamHeld = true) :
    stopTimerBody (withQ u [] tm)
      = withQ { u with
          mr := some ⟨MRPhase.inactive, none⟩, recording := false,
          streamHeld := false, trackStopCount := u.trackStopCount + 1 }
          [Job.tDataAvail p2, Job.tOnStop] tm := by
  obtain ⟨rec, url, err, strm, tsc, dac, mr, ach, wss, ps, sks, ref, buf, isb, fin,
    tok, sup, mic, ts0, tm0, csc⟩ := u
  subst hmr
  subst hstr
  rfl

/-- The stop-grace timer body is a no-op on an already-torn-down
state. -/
theorem stopTimerBody_withQ_inactive (u : Sys) (tm : List Job)
    (hmr : u.mr = some ⟨MRPhase.inactive, none⟩) (hrec : u.recording = false)
    (hstr : u.streamHeld = false) :
    stopTimerBody (withQ u [] tm) = withQ u [] tm := by
  obtain ⟨rec, url, err, strm, tsc, dac, mr, ach, wss, ps, sks, ref, buf, isb, fin,
    tok, sup, mic, ts0, tm0, csc⟩ := u
  subst hmr
  subst hrec
  subst hstr
  rfl

/-- One event-loop turn consuming a queued task. -/
theorem tick_withQ_task (u : Sys) (t : Job) (ts tm : List Job) :
    tick (withQ u (t :: ts) tm) = flushEffect (runTask (withQ u ts tm) t) := by
  rw [tick_cons (withQ u (t :: ts) tm) t ts rfl]
  rfl

/-- One event-loop turn consuming a pending timer. -/
theorem tick_withQ_timer (u : Sys) (t : Job) (tm : List Job) :
    tick (withQ u [] (t :: tm)) = flushEffect (runTask (withQ u [] tm) t) := by
  rw [tick_timer (withQ u [] (t :: tm)) t tm rfl rfl]
  rfl

/-- A turn on empty queues is the identity. -/
theorem tick_withQ_nil (u : Sys) : tick (withQ u [] []) = withQ u [] [] :=
  tick_nil _ rfl rfl

/-- Consuming a `dataavailable` task routes the blob through the relay
and the flush effect, leaving the queues otherwise untouched. -/
theorem tickDA (u : Sys) (p : Option Chunk) (ts tm : List Job) :
    tick (withQ u (Job.tDataAvail p :: ts) tm)
      = withQ (flushEffect (mrDataAvailable u p)) ts tm := by
  rw [tick_withQ_task]
  rw [show runTask (withQ u ts tm) (Job.tDataAvail p)
      = mrDataAvailable (withQ u ts tm) p from rfl]
  rw [mrDataAvailable_withQ, flushEffect_withQ]

/-- Consuming the MediaRecorder `stop` event task. -/
theorem tickOnStop (u : Sys) (ts tm : List Job) :
    tick (withQ u (Job.tOnStop :: ts) tm)
      = withQ (flushEffect (mrOnStop u)) ts tm := by
  rw [tick_withQ_task]
  rw [show runTask (withQ u ts tm) Job.tOnStop = mrOnStop (withQ u ts tm) from rfl]
  rw [mrOnStop_withQ, flushEffect_withQ]

/-- Consuming the stop-grace timer on an active recorder. -/
theorem tickStopTimer_active (u : Sys) (p2 : Option Chunk) (tm : List Job)
    (hmr : u.mr = some ⟨MRPhase.recording, p2⟩) (hstr : u.streamHeld = true) :
    tick (withQ u [] (Job.tStopTimer :: tm))
      = withQ (flushEffect { u with
          mr := some ⟨MRPhase.inactive, none⟩,
          recording := false, streamHeld := false,
          trackStopCount := u.trackStopCount + 1 })
          [Job.tDataAvail p2, Job.tOnStop] tm := by
  rw [tick_withQ_timer]
  rw [show runTask (withQ u [] tm) Job.tStopTimer = stopTimerBody (withQ u [] tm) from rfl]
  rw [stopTimerBody_withQ_active u p2 tm hmr hstr, flushEffect_withQ]

/-- Consuming the stop-grace timer on an already-torn-down state. -/
theorem tickStopTimer_inactive (u : Sys) (tm : List Job)
    (hmr : u.mr = some ⟨MRPhase.inactive, none⟩) (hrec : u.recording = false)
    (hstr : u.streamHeld = false) :
    tick (withQ u [] (Job.tStopTimer :: tm)) = withQ (flushEffect u) [] tm := by
  rw [tick_withQ_timer]
  rw [show runTask (withQ u [] tm) Job.tStopTimer = stopTimerBody (withQ u [] tm) from rfl]
  rw [stopTimerBody_withQ_inactive u tm hmr hrec hstr, flushEffect_withQ]

/-- `mrOnStop` with zero collected chunks. -/
theorem mrOnStop_empty (u : Sys) (h : u.audioChunks = []) :
    mrOnStop u = { u with recError := some "No audio data recorded" } := by
  unfold mrOnStop
  rw [if_pos h]

/-- Consuming an empty final `dataavailable` on a flush-fixed state. -/
theorem tickDA_none (u : Sys) (ts tm : List Job) (hfl : flushEffect u = u) :
    tick (withQ u (Job.tDataAvail none :: ts) tm) = withQ u ts tm := by
  rw [tickDA]
  rw [show mrDataAvailable u none = u from rfl, hfl]

/-- The post-stop core state is a fixed point of the flush effect. -/
theorem flushEffect_stopCore (s : Sys) (p : Option Chunk) :
    flushEffect (stopCore s p) = stopCore s p := by
  apply flushEffect_not
  intro hc
  apply notFlushCond_flushEffect
    (mrDataAvailable { s with mr := some ⟨MRPhase.recording, none⟩ } p)
  exact ⟨hc.1, hc.2.1, hc.2.2⟩

/-- So is the state after its `stop` event handler. -/
theorem flushEffect_mrOnStop_stopCore (s : Sys) (p : Option Chunk) :
    flushEffect (mrOnStop (stopCore s p)) = mrOnStop (stopCore s p) := by
  apply flushEffect_after _ (mrDataAvailable { s with mr := some ⟨MRPhase.recording, none⟩ } p)
  · rw [mrOnStop_wsStatus]
    rfl
  · rw [mrOnStop_isBuffering]
    rfl
  · rw [mrOnStop_buffered]
    rfl

/-- Consuming the stop-grace timer after the final `dataavailable` of
a stop has gone through the relay yields the post-stop core state. -/
theorem tickStopTimer_stopCore (s : Sys) (p : Option Chunk) (tm : List Job)
    (hstr : s.streamHeld = true) :
    tick (withQ (flushEffect (mrDataAvailable { s with mr := some ⟨MRPhase.recording, none⟩ } p)) []
        (Job.tStopTimer :: tm))
      = withQ (stopCore s p) [Job.tDataAvail none, Job.tOnStop] tm := by
  have hXmr : (flushEffect (mrDataAvailable { s with mr := some ⟨MRPhase.recording, none⟩ } p)).mr
      = some ⟨MRPhase.recording, none⟩ := by
    rw [flushEffect_mr, mrDataAvailable_mr]
  have hXstr : (flushEffect (mrDataAvailable { s with mr := some ⟨MRPhase.recording, none⟩ } p)).streamHeld
      = true := by
    rw [flushEffect_streamHeld, mrDataAvailable_streamHeld]
    exact hstr
  rw [tickStopTimer_active _ none tm hXmr hXstr]
  exact congrArg (fun z => withQ z [Job.tDataAvail none, Job.tOnStop] tm)
    (flushEffect_stopCore s p)

/-- Draining a single `stopRecording` from a quiescent active
recording: the final state is the post-stop core state after its
`stop` event, with empty queues. -/
theorem settle_stop (s : Sys) (p : Option Chunk)
    (hrec : s.recording = true) (hmr : s.mr = some ⟨MRPhase.recording, p⟩)
    (hstr : s.streamHeld = true) (ht : s.tasks = []) (hm : s.timers = []) :
    settle (useRecorder_stopRecording s) = withQ (mrOnStop (stopCore s p)) [] [] := by
  have h0 : useRecorder_stopRecording s
      = withQ { s with mr := some ⟨MRPhase.recording, none⟩ }
          [Job.tDataAvail p] [Job.tStopTimer] := by
    rw [stopRecording_active s p hrec hmr, ht, hm]
    rfl
  rw [h0]
  unfold settle
  rw [tickDA]
  rw [tickStopTimer_stopCore s p [] hstr]
  rw [tickDA_none _ _ _ (flushEffect_stopCore s p)]
  rw [tickOnStop]
  rw [flushEffect_mrOnStop_stopCore s p]
  rw [tick_withQ_nil, tick_withQ_nil, tick_withQ_nil, tick_withQ_nil]

/-- Draining two back-to-back `stopRecording` calls from a quiescent
active recording reaches exactly the same final state: the second call
only queues an empty `dataavailable` and a second stop-grace timer,
both of which are no-ops. -/
theorem settle_stopstop (s : Sys) (p : Option Chunk)
    (hrec : s.recording = true) (hmr : s.mr = some ⟨MRPhase.recording, p⟩)
    (hstr : s.streamHeld = true) (ht : s.tasks = []) (hm : s.timers = []) :
    settle (useRecorder_stopRecording (useRecorder_stopRecording s))
      = withQ (mrOnStop (stopCore s p)) [] [] := by
  have h0 : useRecorder_stopRecording s
      = withQ { s with mr := some ⟨MRPhase.recording, none⟩ }
          [Job.tDataAvail p] [Job.tStopTimer] := by
    rw [stopRecording_active s p hrec hmr, ht, hm]
    rfl
  have h1 : useRecorder_stopRecording
        (withQ { s with mr := some ⟨MRPhase.recording, none⟩ }
          [Job.tDataAvail p] [Job.tStopTimer])
      = withQ { s with mr := some ⟨MRPhase.recording, none⟩ }
          [Job.tDataAvail p, Job.tDataAvail none] [Job.tStopTimer, Job.tStopTimer] := by
    rw [stopRecording_active
      (withQ { s with mr := some ⟨MRPhase.recording, none⟩ }
        [Job.tDataAvail p] [Job.tStopTimer]) none hrec rfl]
    rfl
  rw [h0, h1]
  unfold settle
  rw [tickDA]
  rw [tickDA_none _ _ _
    (flushEffect_idem (mrDataAvailable { s with mr := some ⟨MRPhase.recording, none⟩ } p))]
  rw [tickStopTimer_stopCore s p [Job.tStopTimer] hstr]
  rw [tickDA_none _ _ _ (flushEffect_stopCore s p)]
  rw [tickOnStop]
  rw [flushEffect_mrOnStop_stopCore s p]
  have hVmr : (mrOnStop (stopCore s p)).mr = some ⟨MRPhase.inactive, none⟩ := by
    rw [mrOnStop_mr]
    rfl
  have hVrec : (mrOnStop (stopCore s p)).recording = false := by
    rw [mrOnStop_recording]
    rfl
  have hVstr : (mrOnStop (stopCore s p)).streamHeld = false := by
    rw [mrOnStop_streamHeld]
    rfl
  rw [tickStopTimer_inactive _ [] hVmr hVrec hVstr]
  rw [flushEffect_mrOnStop_stopCore s p]
  rw [tick_withQ_nil, tick_withQ_nil]

/-- C9: When the hook's `stopRecording` is requested from an active
recording in which zero chunks were captured, draining the event loop
surfaces the explicit "No audio data recorded" error and produces no
audio artifact (no playable URL). -/
theorem c9_no_audio_recorded (s : Sys)
    (hrec : s.recording = true) (hmr : s.mr = some ⟨MRPhase.recording, none⟩)
    (hch : s.audioChunks = []) (hurl : s.audioUrl = none) (hstr : s.streamHeld = true)
    (ht : s.tasks = []) (hm : s.timers = []) :
    (settle (useRecorder_stopRecording s)).recError = some "No audio data recorded"
    ∧ (settle (useRecorder_stopRecording s)).audioUrl = none := by
  rw [settle_stop s none hrec hmr hstr ht hm]
  have hach : (stopCore s none).audioChunks = [] := by
    show (flushEffect (mrDataAvailable { s with mr := some ⟨MRPhase.recording, none⟩ } none)).audioChunks
        = []
    rw [flushEffect_audioChunks]
    exact hch
  rw [mrOnStop_empty _ hach]
  constructor
  · rfl
  · show (stopCore s none).audioUrl = none
    show (flushEffect (mrDataAvailable { s with mr := some ⟨MRPhase.recording, none⟩ } none)).audioUrl
        = none
    rw [flushEffect_audioUrl]
    exact hurl

/-- Witness for C9 at a concrete recording started with no captured
audio. -/
theorem c9_witness :
    (c9Recording.recording = true
      ∧ c9Recording.mr = some ⟨MRPhase.recording, none⟩
      ∧ c9Recording.audioChunks = [] ∧ c9Recording.audioUrl = none
      ∧ c9Recording.streamHeld = true ∧ c9Recording.tasks = [] ∧ c9Recording.timers = [])
    ∧ ((settle (useRecorder_stopRecording c9Recording)).recError
          = some "No audio data recorded"
      ∧ (settle (useRecorder_stopRecording c9Recording)).audioUrl = none) :=
  ⟨⟨by decide, by decide, by decide, by decide, by decide, by decide, by decide⟩,
   c9_no_audio_recorded c9Recording (by decide) (by decide) (by decide) (by decide)
     (by decide) (by decide) (by decide)⟩

/-- C6: From every quiescent active-recording state, calling the
hook's `stopRecording` twice in succession and draining the event loop
produces exactly the same end state as calling it once; the settled
state has released the microphone tracks exactly once; a further
`stopRecording` on the settled state is a no-op.  Likewise
`cancelRecording` twice equals `cancelRecording` once, with the
track-release side effect occurring exactly once. -/
theorem c6_idempotent_teardown (s : Sys) (p : Option Chunk)
    (hrec : s.recording = true) (hmr : s.mr = some ⟨MRPhase.recording, p⟩)
    (hstr : s.streamHeld = true) (ht : s.tasks = []) (hm : s.timers = []) :
    (settle (useRecorder_stopRecording (useRecorder_stopRecording s))
        = settle (useRecorder_stopRecording s)
      ∧ (settle (useRecorder_stopRecording s)).trackStopCount = s.trackStopCount + 1
      ∧ useRecorder_stopRecording (settle (useRecorder_stopRecording s))
          = settle (useRecorder_stopRecording s))
    ∧ (useRecorder_cancelRecording (useRecorder_cancelRecording s)
        = useRecorder_cancelRecording s
      ∧ (useRecorder_cancelRecording s).trackStopCount = s.trackStopCount + 1) := by
  constructor
  · refine ⟨?_, ?_, ?_⟩
    · rw [settle_stopstop s p hrec hmr hstr ht hm, settle_stop s p hrec hmr hstr ht hm]
    · rw [settle_stop s p hrec hmr hstr ht hm]
      show (mrOnStop (stopCore s p)).trackStopCount = s.trackStopCount + 1
      rw [mrOnStop_trackStopCount]
      show (flushEffect (mrDataAvailable { s with mr := some ⟨MRPhase.recording, none⟩ } p)).trackStopCount
            + 1
          = s.trackStopCount + 1
      rw [flushEffect_trackStopCount, mrDataAvailable_trackStopCount]
    · rw [settle_stop s p hrec hmr hstr ht hm]
      apply stopRecording_noop
      show (mrOnStop (stopCore s p)).recording = false
      rw [mrOnStop_recording]
      rfl
  · constructor
    · apply cancelRecording_noop
      rw [cancelRecording_active s p hrec hmr hstr]
    · rw [cancelRecording_active s p hrec hmr hstr]

/-- Witness for C6 at a concrete active recording. -/
theorem c6_witness :
    (c6Recording.recording = true
      ∧ c6Recording.mr = some ⟨MRPhase.recording, none⟩
      ∧ c6Recording.streamHeld = true
      ∧ c6Recording.tasks = [] ∧ c6Recording.timers = [])
    ∧ ((settle (useRecorder_stopRecording (useRecorder_stopRecording c6Recording))
          = settle (useRecorder_stopRecording c6Recording)
        ∧ (settle (useRecorder_stopRecording c6Recording)).trackStopCount
            = c6Recording.trackStopCount + 1
        ∧ useRecorder_stopRecording (settle (useRecorder_stopRecording c6Recording))
            = settle (useRecorder_stopRecording c6Recording))
      ∧ (useRecorder_cancelRecording (useRecorder_cancelRecording c6Recording)
          = useRecorder_cancelRecording c6Recording
        ∧ (useRecorder_cancelRecording c6Recording).trackStopCount
            = c6Recording.trackStopCount + 1)) :=
  ⟨⟨by decide, by decide, by decide, by decide, by decide⟩,
   c6_idempotent_teardown c6Recording none (by decide) (by decide) (by decide)
     (by decide) (by decide)⟩
